import Mathlib

/-!
Verification of the `nsDiskModule` persistent disk-cache store
(`src/netwerk/base/public/nsIUrl.h`, second embedded document: `nsDiskModule.cpp`).

The module is a lazily-opened, file-backed hash database mapping URL strings to
opaque metadata blobs.  The method bodies of `AddObject`, the two `Contains`
overloads, the two `GetObject` overloads and `InitDB` are translated directly
from the C++ source.  The external collaborators — the `mcom_db` hash database
(`dbopen` / `put` / `get` / `sync`), the `nsCacheObject` entry type and the
`nsCacheManager::DISK` tier tag — have no header in the sources and are
modelled from the spec, as noted on each such definition.

I/O outcomes of the external database (whether `dbopen` succeeds and with what
file contents, whether `put` and `sync` return status 0) are an explicit
environment parameter, so that the module's failure paths are all reachable.
-/

namespace DiskCache

/-- An opaque metadata blob: a byte sequence (the bytes at the `Info()` pointer,
`InfoSize()` of them). -/
abbrev Blob := List Nat

/-- Modelled from the spec: the external `nsCacheObject` entry type
(`nsCacheObject.h` is not among the sources).  Per the spec it exposes an
identity/address string (the lookup key, a nullable C string, hence
`Option String`), an opaque metadata blob with a tracked byte length
(`Info()` / `InfoSize()`, modelled as `info` with length `info.length`), and a
mutable owning-module tag (`Module(...)` setter). -/
structure nsCacheObject where
  address : Option String
  info : Blob
  module : Int
deriving Repr, DecidableEq

/-- Modelled from the spec: a freshly `new`-constructed `nsCacheObject` has no
address, an empty blob and a default owning-module tag. -/
def newCacheObject : nsCacheObject := ⟨none, [], 0⟩

/-- Modelled from the spec: the `nsCacheManager::DISK` tier tag
(`nsCacheManager.h` is not among the sources); a distinguished constant, its
numeric value immaterial, chosen distinct from `newCacheObject`'s default 0. -/
def DISK : Int := 1

/-- Modelled from the spec: outcomes of the external I/O calls the module
makes.  `openResult` is what `dbopen` yields: `none` on failure, or the
key→blob contents of the backing file on success (a fresh file gives `some
[]`).  `putOK` / `syncOK` are whether the database `put` / `sync` calls return
status 0. -/
structure Env where
  openResult : Option (List (String × Blob))
  putOK : Bool
  syncOK : Bool
deriving Repr, DecidableEq

/-- Modelled from the spec: `get` of the underlying hash database — key-addressed
lookup; a missing key is "not found", never an error. -/
def dbGet (t : List (String × Blob)) (k : String) : Option Blob :=
  match t with
  | [] => none
  | (k', v) :: rest => if k' = k then some v else dbGet rest k

/-- Modelled from the spec: `put` with flag 0 of the underlying hash database —
one entry per unique key, an existing entry for the key is replaced. -/
def dbPut (t : List (String × Blob)) (k : String) (v : Blob) : List (String × Blob) :=
  match t with
  | [] => [(k, v)]
  | (k', v') :: rest => if k' = k then (k, v) :: rest else (k', v') :: dbPut rest k v

/-- The store state: `m_pDB` is the handle to the open database (`none` = null,
i.e. not yet opened or open failed), carrying the table contents when open. -/
structure nsDiskModule where
  m_pDB : Option (List (String × Blob))
deriving Repr, DecidableEq

/-- `nsDiskModule::InitDB`: if `m_pDB` is already set it is kept, otherwise
`dbopen` is attempted and its result (possibly null) assigned to `m_pDB`.
The C++ boolean result is `m_pDB != 0` afterwards, i.e.
`(InitDB env m).m_pDB.isSome`. -/
def InitDB (env : Env) (m : nsDiskModule) : nsDiskModule :=
  match m.m_pDB with
  | some _ => m
  | none => ⟨env.openResult⟩

/-- What a call to `nsDiskModule::AddObject` produces: the `PRBool` return
value, the store state after the call, the object the caller's
`io_pObject` pointer refers to after the call (its `Module` tag may have been
set), and whether the database `sync` call was performed. -/
structure AddResult where
  ret : Bool
  state : nsDiskModule
  obj : Option nsCacheObject
  didSync : Bool
deriving Repr, DecidableEq

/-- `nsDiskModule::AddObject`, translated line by line:
if `InitDB` fails, return false; if the object and its `Address()` are
non-null, set the object's `Module` tag to `DISK`, `put` the
(`Address()`, `Info()`/`InfoSize()`) pair, and if the `put` returned 0 `sync`;
return (status == 0).  Otherwise return false. -/
def AddObject (env : Env) (m : nsDiskModule) (io_pObject : Option nsCacheObject) : AddResult :=
  let m1 := InitDB env m
  match m1.m_pDB with
  | none => ⟨false, m1, io_pObject, false⟩
  | some t =>
    match io_pObject with
    | some o =>
      match o.address with
      | some addr =>
        let o1 := { o with module := DISK }
        if env.putOK then
          ⟨env.syncOK, ⟨some (dbPut t addr o.info)⟩, some o1, true⟩
        else
          ⟨false, m1, some o1, false⟩
      | none => ⟨false, m1, some o, false⟩
    | none => ⟨false, m1, none, false⟩

/-- `nsDiskModule::GetObject(const char* i_url)`: lazily open; if `m_pDB` is
null, or `i_url` is null or empty, return null; else `get` by key and on a
hit return a `new nsCacheObject` whose `Info` is set to the retrieved data.
Returns (result pointer, store state after the call — the method is `const`
but casts the const away to call `InitDB`). -/
def GetObject (env : Env) (m : nsDiskModule) (i_url : Option String) :
    Option nsCacheObject × nsDiskModule :=
  let m1 := match m.m_pDB with
            | none => InitDB env m
            | some _ => m
  match m1.m_pDB with
  | none => (none, m1)
  | some t =>
    match i_url with
    | none => (none, m1)
    | some u =>
      if u = "" then (none, m1)
      else
        match dbGet t u with
        | some v => (some { newCacheObject with info := v }, m1)
        | none => (none, m1)

/-- `nsDiskModule::GetObject(const PRUint32 i_index)`: lazily open, then
return 0 unconditionally (a stub). -/
def GetObjectByIndex (env : Env) (m : nsDiskModule) (i_index : Nat) :
    Option nsCacheObject × nsDiskModule :=
  let m1 := match m.m_pDB with
            | none => InitDB env m
            | some _ => m
  match m1.m_pDB with
  | none => (none, m1)
  | some _ => (none, m1)

/-- `nsDiskModule::Contains(const char* i_url)`: lazily open; if `m_pDB` is
null, or `i_url` null or empty, return false; else return whether `get` by
key returned status 0. -/
def Contains (env : Env) (m : nsDiskModule) (i_url : Option String) :
    Bool × nsDiskModule :=
  let m1 := match m.m_pDB with
            | none => InitDB env m
            | some _ => m
  match m1.m_pDB with
  | none => (false, m1)
  | some t =>
    match i_url with
    | none => (false, m1)
    | some u =>
      if u = "" then (false, m1)
      else ((dbGet t u).isSome, m1)

/-- `nsDiskModule::Contains(nsCacheObject* io_pObject)`: lazily open; if
`m_pDB` or `io_pObject` is null, return false; else look up
`GetObject(io_pObject->Address())` and return whether it hit.  The C++
parameter `io_pObject` is a pointer passed BY VALUE, so the assignment
`io_pObject = pTemp` on a hit rebinds only the callee's local copy of the
pointer; the third component returned here is the object the CALLER's pointer
refers to after the call, which is therefore the unchanged input. -/
def ContainsObject (env : Env) (m : nsDiskModule) (io_pObject : Option nsCacheObject) :
    Bool × nsDiskModule × Option nsCacheObject :=
  let m1 := match m.m_pDB with
            | none => InitDB env m
            | some _ => m
  match m1.m_pDB with
  | none => (false, m1, io_pObject)
  | some _ =>
    match io_pObject with
    | none => (false, m1, none)
    | some o =>
      let r := GetObject env m1 o.address
      match r.1 with
      | some _pTemp => (true, r.2, some o)
      | none => (false, r.2, some o)

/-- Replacing under the same key: `dbGet` after `dbPut` at that key finds the
just-written blob. -/
theorem dbGet_dbPut_self (t : List (String × Blob)) (k : String) (v : Blob) :
    dbGet (dbPut t k v) k = some v := by
  induction t with
  | nil => simp [dbPut, dbGet]
  | cons hd rest ih =>
    obtain ⟨k', v'⟩ := hd
    by_cases h : k' = k <;> simp [dbPut, dbGet, h, ih]

/-- A successful `AddObject some o` implies the open succeeded on some table
`t`, the object's key was non-null, both `put` and `sync` returned 0, and the
resulting state is `t` with the (key, blob) pair written. -/
theorem addObject_success_state (env : Env) (m : nsDiskModule) (o : nsCacheObject)
    (hret : (AddObject env m (some o)).ret = true) :
    ∃ t k, (InitDB env m).m_pDB = some t ∧ o.address = some k ∧
      env.putOK = true ∧ env.syncOK = true ∧
      (AddObject env m (some o)).state = ⟨some (dbPut t k o.info)⟩ := by
  cases hdb : (InitDB env m).m_pDB with
  | none => simp [AddObject, hdb] at hret
  | some t =>
    cases haddr : o.address with
    | none => simp [AddObject, hdb, haddr] at hret
    | some k =>
      cases hput : env.putOK with
      | false => simp [AddObject, hdb, haddr, hput] at hret
      | true =>
        refine ⟨t, k, rfl, rfl, rfl, ?_, ?_⟩
        · simpa [AddObject, hdb, haddr, hput] using hret
        · simp [AddObject, hdb, haddr, hput]

/-- `GetObject` on an open store with a non-empty key that `dbGet` finds
returns a fresh object carrying the found blob. -/
theorem getObject_found (env : Env) (t : List (String × Blob)) (k : String) (v : Blob)
    (hne : k ≠ "") (hv : dbGet t k = some v) :
    (GetObject env ⟨some t⟩ (some k)).1 = some { newCacheObject with info := v } := by
  simp [GetObject, hne, hv]

/-- After a successful `AddObject` of an entry keyed by a non-empty `k`,
`GetObject k` on the resulting state returns a fresh object carrying the
entry's blob. -/
theorem getObject_after_addObject (env env2 : Env) (m : nsDiskModule)
    (o : nsCacheObject) (k : String)
    (hk : o.address = some k) (hne : k ≠ "")
    (hret : (AddObject env m (some o)).ret = true) :
    (GetObject env2 (AddObject env m (some o)).state (some k)).1
      = some { newCacheObject with info := o.info } := by
  obtain ⟨t, k', hdb, hk', hput, hsync, hstate⟩ := addObject_success_state env m o hret
  rw [hk] at hk'
  injection hk' with hkk
  subst hkk
  rw [hstate]
  exact getObject_found env2 _ k o.info hne (dbGet_dbPut_self t k o.info)

/-- C1: for every non-empty key string `k` and any byte blob `v`, a successful
`AddObject` of an entry with address `k` and blob `v`, followed by
`GetObject k` on the resulting open store, returns an entry whose metadata
blob equals `v` (round-trip). -/
theorem C1_put_get_roundtrip (env env2 : Env) (m : nsDiskModule) (o : nsCacheObject)
    (k : String) (v : Blob)
    (hk : o.address = some k) (hne : k ≠ "") (hv : o.info = v)
    (hret : (AddObject env m (some o)).ret = true) :
    ∃ e : nsCacheObject,
      (GetObject env2 (AddObject env m (some o)).state (some k)).1 = some e ∧
      e.info = v := by
  refine ⟨{ newCacheObject with info := v }, ?_, rfl⟩
  rw [← hv]
  exact getObject_after_addObject env env2 m o k hk hne hret

/-- C1 witness: a concrete successful put of ("http://a", [1,2,3]) followed by
a get of "http://a" yields the blob [1,2,3]. -/
theorem C1_put_get_roundtrip_witness :
    ∃ e : nsCacheObject,
      (GetObject ⟨some [], true, true⟩
        (AddObject ⟨some [], true, true⟩ ⟨none⟩
          (some ⟨some "http://a", [1, 2, 3], 0⟩)).state (some "http://a")).1 = some e ∧
      e.info = [1, 2, 3] :=
  C1_put_get_roundtrip ⟨some [], true, true⟩ ⟨some [], true, true⟩ ⟨none⟩
    ⟨some "http://a", [1, 2, 3], 0⟩ "http://a" [1, 2, 3] rfl (by decide) rfl (by decide)

/-- C2: after a successful `AddObject` of (k, v1) followed by a successful
`AddObject` of (k, v2), `GetObject k` returns v2 — the second write
overwrites the first (last write wins). -/
theorem C2_overwrite (env1 env2 env3 : Env) (m : nsDiskModule) (o1 o2 : nsCacheObject)
    (k : String) (v1 v2 : Blob)
    (hk1 : o1.address = some k) (hv1 : o1.info = v1)
    (hk2 : o2.address = some k) (hv2 : o2.info = v2) (hne : k ≠ "")
    (hr1 : (AddObject env1 m (some o1)).ret = true)
    (hr2 : (AddObject env2 (AddObject env1 m (some o1)).state (some o2)).ret = true) :
    ∃ e : nsCacheObject,
      (GetObject env3
        (AddObject env2 (AddObject env1 m (some o1)).state (some o2)).state
        (some k)).1 = some e ∧
      e.info = v2 := by
  refine ⟨{ newCacheObject with info := v2 }, ?_, rfl⟩
  rw [← hv2]
  exact getObject_after_addObject env2 env3 (AddObject env1 m (some o1)).state o2 k hk2 hne hr2

/-- C2 witness: put ("http://a", [1]) then ("http://a", [2]); the get returns
[2]. -/
theorem C2_overwrite_witness :
    ∃ e : nsCacheObject,
      (GetObject ⟨some [], true, true⟩
        (AddObject ⟨some [], true, true⟩
          (AddObject ⟨some [], true, true⟩ ⟨none⟩
            (some ⟨some "http://a", [1], 0⟩)).state
          (some ⟨some "http://a", [2], 0⟩)).state
        (some "http://a")).1 = some e ∧
      e.info = [2] :=
  C2_overwrite ⟨some [], true, true⟩ ⟨some [], true, true⟩ ⟨some [], true, true⟩ ⟨none⟩
    ⟨some "http://a", [1], 0⟩ ⟨some "http://a", [2], 0⟩ "http://a" [1] [2]
    rfl rfl rfl rfl (by decide) (by decide) (by decide)

/-- C3 counterexample: the claim says AddObject with the empty-string key
returns false and leaves the store unchanged; on the code, the guard only
null-checks the key, so an empty (non-null) key is written like any other:
the call returns true and the entry ("", [7]) is stored. -/
theorem C3_empty_key_not_rejected :
    (AddObject ⟨some [], true, true⟩ ⟨none⟩ (some ⟨some "", [7], 0⟩)).ret = true ∧
    (AddObject ⟨some [], true, true⟩ ⟨none⟩ (some ⟨some "", [7], 0⟩)).state
      = ⟨some [("", [7])]⟩ := by decide

/-- C3 (amended): AddObject returns false and leaves the store contents
unchanged (beyond the lazy open itself) exactly when the entry pointer or the
entry's key string is null; an empty-string key is not rejected. -/
theorem C3_amended_null_rejected (env : Env) (m : nsDiskModule) (o? : Option nsCacheObject)
    (h : o? = none ∨ ∃ o, o? = some o ∧ o.address = none) :
    (AddObject env m o?).ret = false ∧
    (AddObject env m o?).state = InitDB env m ∧
    (AddObject env m o?).obj = o? := by
  rcases h with h | ⟨o, ho, haddr⟩
  · subst h
    cases hdb : (InitDB env m).m_pDB <;> simp [AddObject, hdb]
  · subst ho
    cases hdb : (InitDB env m).m_pDB <;> simp [AddObject, hdb, haddr]

/-- C3 amended witness: AddObject of a null entry on a fresh store returns
false and changes nothing beyond the lazy open. -/
theorem C3_amended_null_rejected_witness :
    (AddObject ⟨some [], true, true⟩ ⟨none⟩ none).ret = false ∧
    (AddObject ⟨some [], true, true⟩ ⟨none⟩ none).state
      = InitDB ⟨some [], true, true⟩ ⟨none⟩ ∧
    (AddObject ⟨some [], true, true⟩ ⟨none⟩ none).obj = none :=
  C3_amended_null_rejected ⟨some [], true, true⟩ ⟨none⟩ none (Or.inl rfl)

/-- C4 counterexample: a successful AddObject can store an entry under the
empty key (see the C3 counterexample), and on the resulting store Contains("")
returns false although an entry for "" is present — refuting "true iff an
entry for k exists". -/
theorem C4_empty_key_entry_invisible :
    (AddObject ⟨some [], true, true⟩ ⟨none⟩ (some ⟨some "", [9], 0⟩)).ret = true ∧
    (AddObject ⟨some [], true, true⟩ ⟨none⟩ (some ⟨some "", [9], 0⟩)).state
      = ⟨some [("", [9])]⟩ ∧
    dbGet [("", [9])] "" = some [9] ∧
    (Contains ⟨some [], true, true⟩ ⟨some [("", [9])]⟩ (some "")).1 = false := by decide

/-- C4 (amended): Contains(k) returns true iff the store is open after the
lazy open, k is non-null and non-empty, and an entry for k is present in the
table; in particular it returns false for the empty key even when an
empty-key entry exists, and false whenever the store is unavailable. -/
theorem C4_amended_contains_characterization (env : Env) (m : nsDiskModule)
    (u : Option String) :
    (Contains env m u).1 = true ↔
      ∃ t k, (Contains env m u).2.m_pDB = some t ∧ u = some k ∧ k ≠ "" ∧
        (dbGet t k).isSome = true := by
  simp only [Contains]
  cases hdb : (match m.m_pDB with | none => InitDB env m | some _ => m).m_pDB with
  | none => simp [hdb]
  | some t =>
    cases u with
    | none => simp [hdb]
    | some s =>
      by_cases hs : s = ""
      · simp [hdb, hs]
      · cases hg : dbGet t s <;> simp [hdb, hs, hg]

/-- C5: AddObject returns true only if the database put succeeded, the sync
was then performed, and the sync succeeded — every successful put is flushed
before returning. -/
theorem C5_success_implies_flush (env : Env) (m : nsDiskModule) (o? : Option nsCacheObject)
    (hret : (AddObject env m o?).ret = true) :
    (AddObject env m o?).didSync = true ∧ env.putOK = true ∧ env.syncOK = true := by
  cases hdb : (InitDB env m).m_pDB with
  | none => simp [AddObject, hdb] at hret
  | some t =>
    cases o? with
    | none => simp [AddObject, hdb] at hret
    | some o =>
      cases haddr : o.address with
      | none => simp [AddObject, hdb, haddr] at hret
      | some k =>
        cases hput : env.putOK with
        | false => simp [AddObject, hdb, haddr, hput] at hret
        | true =>
          have hs : env.syncOK = true := by
            simpa [AddObject, hdb, haddr, hput] using hret
          refine ⟨?_, rfl, hs⟩
          simp [AddObject, hdb, haddr, hput]

/-- C5 witness: a concrete successful AddObject did sync, and both put and
sync succeeded. -/
theorem C5_success_implies_flush_witness :
    (AddObject ⟨some [], true, true⟩ ⟨none⟩ (some ⟨some "k", [5], 0⟩)).didSync = true ∧
    (Env.mk (some []) true true).putOK = true ∧
    (Env.mk (some []) true true).syncOK = true :=
  C5_success_implies_flush ⟨some [], true, true⟩ ⟨none⟩ (some ⟨some "k", [5], 0⟩) (by decide)

/-- C6: when the store is not yet open and dbopen fails, every AddObject
returns false, both GetObject overloads return null, and both Contains
overloads return false. -/
theorem C6_open_failure_degrades (env : Env) (m : nsDiskModule)
    (hclosed : m.m_pDB = none) (hfail : env.openResult = none) :
    (∀ o?, (AddObject env m o?).ret = false) ∧
    (∀ u, (GetObject env m u).1 = none) ∧
    (∀ i, (GetObjectByIndex env m i).1 = none) ∧
    (∀ u, (Contains env m u).1 = false) ∧
    (∀ o?, (ContainsObject env m o?).1 = false) := by
  have hinit : InitDB env m = ⟨none⟩ := by simp [InitDB, hclosed, hfail]
  refine ⟨fun o? => ?_, fun u => ?_, fun i => ?_, fun u => ?_, fun o? => ?_⟩ <;>
    simp [AddObject, GetObject, GetObjectByIndex, Contains, ContainsObject, hclosed, hinit]

/-- C6 witness: on a concrete unopened store whose dbopen fails, AddObject
returns false. -/
theorem C6_open_failure_degrades_witness :
    (AddObject ⟨none, true, true⟩ ⟨none⟩ (some ⟨some "k", [1], 0⟩)).ret = false :=
  (C6_open_failure_degrades ⟨none, true, true⟩ ⟨none⟩ rfl rfl).1 (some ⟨some "k", [1], 0⟩)

/-- C7: the index-based GetObject overload returns null for every index and
every store state. -/
theorem C7_index_lookup_always_null (env : Env) (m : nsDiskModule) (i : Nat) :
    (GetObjectByIndex env m i).1 = none := by
  simp only [GetObjectByIndex]
  cases hdb : (match m.m_pDB with | none => InitDB env m | some _ => m).m_pDB <;> simp

/-- C8: on a hit the entry-based Contains returns true, but the C++ pointer
parameter is passed by value, so the caller's reference still denotes the
unchanged input entry ⟨"k", [1], 0⟩ — not the canonical stored instance that
the internal GetObject produced (blob [5]). -/
theorem C8_no_caller_visible_replacement :
    (ContainsObject ⟨some [("k", [5])], true, true⟩ ⟨some [("k", [5])]⟩
        (some ⟨some "k", [1], 0⟩)).1 = true ∧
    (ContainsObject ⟨some [("k", [5])], true, true⟩ ⟨some [("k", [5])]⟩
        (some ⟨some "k", [1], 0⟩)).2.2 = some ⟨some "k", [1], 0⟩ ∧
    (GetObject ⟨some [("k", [5])], true, true⟩ ⟨some [("k", [5])]⟩ (some "k")).1
      = some ⟨none, [5], 0⟩ := by decide

/-- C9 counterexample: with the store open but the database put failing,
AddObject returns false yet the entry's owning-module tag has been changed
from 5 to DISK — refuting "the tag is set exactly on successful insert". -/
theorem C9_tag_set_despite_failure :
    (AddObject ⟨some [], false, true⟩ ⟨none⟩ (some ⟨some "k", [2], 5⟩)).ret = false ∧
    (AddObject ⟨some [], false, true⟩ ⟨none⟩ (some ⟨some "k", [2], 5⟩)).obj
      = some ⟨some "k", [2], DISK⟩ ∧
    DISK ≠ (5 : Int) := by decide

/-- C9 (amended): AddObject sets the entry's owning-module tag to DISK exactly
when the store is open after the lazy open and the entry's key is non-null —
i.e. whenever the write is attempted, even if the put or sync then fails; on
open failure or a null key the tag is unchanged. -/
theorem C9_amended_tag_set_on_attempt (env : Env) (m : nsDiskModule) (o : nsCacheObject) :
    (AddObject env m (some o)).obj =
      some (if (InitDB env m).m_pDB.isSome = true ∧ o.address.isSome = true
            then { o with module := DISK } else o) := by
  cases hdb : (InitDB env m).m_pDB with
  | none => simp [AddObject, hdb]
  | some t =>
    cases haddr : o.address with
    | none => simp [AddObject, hdb, haddr]
    | some k =>
      cases hput : env.putOK <;> simp [AddObject, hdb, haddr, hput]

/-- C10: the string-based Contains returns true exactly when the string-based
GetObject returns a non-null entry, in every environment, store state and for
every (nullable) key. -/
theorem C10_contains_agrees_with_get (env : Env) (m : nsDiskModule) (u : Option String) :
    (Contains env m u).1 = ((GetObject env m u).1).isSome := by
  simp only [Contains, GetObject]
  cases hdb : (match m.m_pDB with | none => InitDB env m | some _ => m).m_pDB with
  | none => simp
  | some t =>
    cases u with
    | none => simp
    | some s =>
      by_cases hs : s = ""
      · simp [hs]
      · cases hg : dbGet t s <;> simp [hs, hg]

end DiskCache
